import Mathlib

/-!
Shallow embedding of `cifar_model.py` (repository rothk/neurips20_public).

The file defines CIFAR-10/100 classifier factories and a Carlini-style
architecture.  Pure structure-building code is embedded as Lean functions;
the stateful `make_layers` loop becomes an explicit fold over a state pair
`(layers, in_channels)`; fallible paths (dictionary lookup, type assertion,
state-dict loading, unbound local variables) return `Except`; the network
I/O performed by `torch.load` / `model_zoo.load_url` is tracked as an
explicit effect trace.  Python floats (the eps parameters) are modelled as
exact rationals, with `round` as round-half-to-even on rationals.
-/

/-- One entry of a layer configuration list (`cfg` in the source):
either the pooling marker `'M'`, a bare integer channel count, or a
`(out_channels, padding)` tuple. -/
inductive LayerSpec where
  | M : LayerSpec
  | num : Nat → LayerSpec
  | pair : Nat → Int → LayerSpec
deriving DecidableEq, Repr

/-- A constructed layer object, abstracting the `torch.nn` modules that
`cifar_model.py` instantiates (`MaxPool2d`, `Conv2d`, `BatchNorm2d`,
`ReLU`, `Linear`, `Dropout`), recording the construction arguments the
source passes. -/
inductive Layer where
  | maxPool2d (kernelSize stride : Nat)
  | conv2d (inChannels outChannels kernelSize : Nat) (padding : Int)
  | batchNorm2d (numFeatures : Nat) (affine : Bool)
  | relu
  | linear (inFeatures outFeatures : Nat)
  | dropout
deriving DecidableEq, Repr

/-- The loop body of `make_layers` (source lines 52-63): state is the pair
`(layers, in_channels)`; one configuration entry `v` is processed. -/
def make_layersStep (batch_norm : Bool) (st : List Layer × Nat) (v : LayerSpec) :
    List Layer × Nat :=
  match v with
  | .M => (st.1 ++ [Layer.maxPool2d 2 2], st.2)
  | .num out_channels =>
      let conv2d := Layer.conv2d st.2 out_channels 3 1
      (st.1 ++ (if batch_norm then
          [conv2d, Layer.batchNorm2d out_channels false, Layer.relu]
        else [conv2d, Layer.relu]), out_channels)
  | .pair out_channels padding =>
      let conv2d := Layer.conv2d st.2 out_channels 3 padding
      (st.1 ++ (if batch_norm then
          [conv2d, Layer.batchNorm2d out_channels false, Layer.relu]
        else [conv2d, Layer.relu]), out_channels)

/-- The whole `make_layers` loop: `layers = []`, `in_channels = 3`, then the
fold over `cfg`.  The final state carries both the layer list and the final
running channel count. -/
def make_layersLoop (cfg : List LayerSpec) (batch_norm : Bool) : List Layer × Nat :=
  cfg.foldl (make_layersStep batch_norm) ([], 3)

/-- `make_layers(cfg, batch_norm)` (source lines 49-64): returns the ordered
layer sequence (the `nn.Sequential` contents). -/
def make_layers (cfg : List LayerSpec) (batch_norm : Bool) : List Layer :=
  (make_layersLoop cfg batch_norm).1

/-- The channel value of a configuration entry (`v[0] if isinstance(v, tuple)
else v`); the pooling marker has no channel value and is mapped to 0. -/
def channelOf : LayerSpec → Nat
  | .M => 0
  | .num n => n
  | .pair n _ => n

/-- Whether a constructed layer is the 2x2, stride-2 spatial downsampling
layer (`nn.MaxPool2d(kernel_size=2, stride=2)`). -/
def isPool : Layer → Bool
  | .maxPool2d 2 2 => true
  | _ => false

/-- Whether a configuration entry is the pooling marker `'M'`. -/
def isM : LayerSpec → Bool
  | .M => true
  | _ => false

lemma make_layersStep_fst (batch_norm : Bool) (st : List Layer × Nat) (v : LayerSpec) :
    ∃ app : List Layer, (make_layersStep batch_norm st v).1 = st.1 ++ app ∧
      app.countP isPool = (if isM v then 1 else 0) := by
  cases v with
  | M => exact ⟨[Layer.maxPool2d 2 2], rfl, rfl⟩
  | num n =>
      cases batch_norm with
      | false => exact ⟨[Layer.conv2d st.2 n 3 1, Layer.relu], rfl, rfl⟩
      | true => exact ⟨[Layer.conv2d st.2 n 3 1, Layer.batchNorm2d n false, Layer.relu], rfl, rfl⟩
  | pair n p =>
      cases batch_norm with
      | false => exact ⟨[Layer.conv2d st.2 n 3 p, Layer.relu], rfl, rfl⟩
      | true => exact ⟨[Layer.conv2d st.2 n 3 p, Layer.batchNorm2d n false, Layer.relu], rfl, rfl⟩

lemma foldl_countP_pool (batch_norm : Bool) :
    ∀ (cfg : List LayerSpec) (st : List Layer × Nat),
      ((cfg.foldl (make_layersStep batch_norm) st).1.countP isPool)
        = st.1.countP isPool + cfg.countP isM := by
  intro cfg
  induction cfg with
  | nil => intro st; simp
  | cons v rest ih =>
      intro st
      rw [List.foldl_cons, ih]
      obtain ⟨app, happ, hcount⟩ := make_layersStep_fst batch_norm st v
      have hsnd : (make_layersStep batch_norm st v).1.countP isPool
          = st.1.countP isPool + (if isM v then 1 else 0) := by
        rw [happ, List.countP_append, hcount]
      rw [hsnd, List.countP_cons]
      by_cases hv : isM v = true
      all_goals simp [hv]
      all_goals omega

lemma foldl_snd_last (batch_norm : Bool) :
    ∀ (cfg : List LayerSpec) (st : List Layer × Nat) (v : LayerSpec),
      (∀ u ∈ cfg, u ≠ LayerSpec.M) → cfg.getLast? = some v →
      (cfg.foldl (make_layersStep batch_norm) st).2 = channelOf v := by
  intro cfg
  induction cfg with
  | nil => intro st v _ hlast; simp at hlast
  | cons u rest ih =>
      intro st v hnoM hlast
      cases rest with
      | nil =>
          have hv : u = v := by simpa using hlast
          subst hv
          have hu : u ≠ LayerSpec.M := hnoM u (by simp)
          cases u with
          | M => exact absurd rfl hu
          | num n => cases batch_norm <;> rfl
          | pair n p => cases batch_norm <;> rfl
      | cons r rs =>
          rw [List.getLast?_cons_cons] at hlast
          rw [List.foldl_cons]
          exact ih _ v (fun x hx => hnoM x (List.mem_cons_of_mem u hx)) hlast

/-! ## Errors, artifacts, I/O effects -/

/-- The Python-level failures the module can surface: `KeyError` on the URL
dictionary (a `LookupError`), a failed `assert isinstance(state_dict, (dict,
OrderedDict))`, a `load_state_dict` key mismatch, and reading a local
variable no branch assigned (`UnboundLocalError`, carrying the variable
name). -/
inductive PyError where
  | lookupError (key : String)
  | typeAssertionError
  | stateMismatchError
  | unboundLocalError (varName : String)
deriving DecidableEq, Repr

/-- A serialized parameter dictionary: parameter name to an abstract tensor
value (tensor contents are opaque to this module, so a `Nat` tag stands for
a tensor). -/
abbrev StateDict := List (String × Nat)

/-- What a fetch/deserialize call can hand back: a mapping (`dict` /
`OrderedDict`), a full `nn.Module` (whose `state_dict()` is a mapping), or
any other object (which fails the `isinstance` assertion). -/
inductive Artifact where
  | mapping (sd : StateDict)
  | module (sd : StateDict)
  | other
deriving DecidableEq, Repr

/-- An observable I/O effect: fetching/deserializing the artifact at a URL
(`torch.load` or `model_zoo.load_url`). -/
inductive Effect where
  | fetch (url : String)
deriving DecidableEq, Repr

/-- The external world: what artifact each URL deserializes to, and the
freshly initialized parameters torch gives a newly constructed module
(random init is external to this module, so it is an oracle of the
constructed feature/classifier layers). -/
structure Env where
  load : String → Artifact
  initState : List Layer → List Layer → StateDict

/-- `model_urls` (source lines 7-10): the in-source mapping of symbolic
checkpoint names to remote URLs; exactly two entries. -/
def model_urls : List (String × String) :=
  [("cifar10", "http://ml.cs.tsinghua.edu.cn/~chenxi/pytorch-models/cifar10-d875770b.pth"),
   ("cifar100", "http://ml.cs.tsinghua.edu.cn/~chenxi/pytorch-models/cifar100-3a55a987.pth")]

/-- `model_urls[key]` followed by a fetch of the resulting URL: the lookup
raises `KeyError` (no fetch occurs) when the key is absent; otherwise the
environment deserializes the URL and the fetch is recorded in the trace. -/
def fetchArtifact (env : Env) (key : String) : Except PyError Artifact × List Effect :=
  match model_urls.lookup key with
  | some url => (Except.ok (env.load url), [Effect.fetch url])
  | none => (Except.error (PyError.lookupError key), [])

/-- `th.load(model_urls[key], map_location=map_location)`: device placement
does not affect the abstraction, so `map_location` is carried but unused. -/
def th_load (env : Env) (key : String) (map_location : Option String) :
    Except PyError Artifact × List Effect :=
  fetchArtifact env key

/-- `model_zoo.load_url(model_urls[key], ...)`: same lookup-then-fetch shape
as `th_load`. -/
def model_zoo_load_url (env : Env) (key : String) (map_location : Option String) :
    Except PyError Artifact × List Effect :=
  fetchArtifact env key

/-- `m.state_dict() if isinstance(m, nn.Module) else m` (source lines 113 and
134): a module is replaced by its state dict (a mapping); anything else is
passed through. -/
def stateDictOf : Artifact → Artifact
  | .module sd => .mapping sd
  | a => a

/-! ## Networks and checkpoint application -/

/-- A constructed two-stage network (the `CIFAR` and `Carlini` classes):
feature stage, classifier stage, and the current parameter state. -/
structure Network where
  features : List Layer
  classifier : List Layer
  state : StateDict
deriving DecidableEq, Repr

/-- `CIFAR(features, n_channel, num_classes)` (source lines 12-19): the
classifier is a single `Linear(n_channel, num_classes)`; initial parameters
come from the environment's initializer. -/
def mkCIFAR (env : Env) (features : List Layer) (n_channel num_classes : Nat) : Network :=
  let classifier := [Layer.linear n_channel num_classes]
  { features := features, classifier := classifier,
    state := env.initState features classifier }

/-- `Carlini(features, n_channel)` (source lines 28-40): the fixed
multi-layer classifier head. -/
def mkCarlini (env : Env) (features : List Layer) (n_channel : Nat) : Network :=
  let classifier := [Layer.linear n_channel 256, Layer.relu, Layer.dropout,
    Layer.linear 256 256, Layer.relu, Layer.linear 256 10]
  { features := features, classifier := classifier,
    state := env.initState features classifier }

/-- Whether two state dicts have the same key set. -/
def keysMatch (a b : StateDict) : Bool :=
  a.all (fun p => b.any (fun q => q.1 == p.1)) &&
    b.all (fun q => a.any (fun p => p.1 == q.1))

/-- Modelled from the spec: `model.load_state_dict(state_dict)` is provided
by the external tensor library, not by this repository.  Per the spec, the
checkpoint is "applied onto a constructed Network's parameters by exact name
match", a key mismatch "raises StateMismatchError", and loading is
all-or-nothing with "no partial application of a checkpoint".  The result is
the (possibly updated) network together with the error, if any. -/
def loadStateDictMut (model : Network) (sd : StateDict) : Network × Option PyError :=
  if keysMatch model.state sd then ({ model with state := sd }, none)
  else (model, some PyError.stateMismatchError)

/-- The shared tail of every pretrained branch (source lines 81-82, 114-115,
124-125): `assert isinstance(state_dict, (dict, OrderedDict))`, then
`model.load_state_dict(state_dict)`. -/
def applyStateDict (model : Network) (art : Artifact) : Except PyError Network :=
  match art with
  | .mapping sd =>
      match loadStateDictMut model sd with
      | (m, none) => Except.ok m
      | (_, some e) => Except.error e
  | _ => Except.error PyError.typeAssertionError

/-- Fetch by key with `th.load`, then assert-and-load (the common
branch-body shape of the factories). -/
def loadAndApply (env : Env) (model : Network) (key : String)
    (map_location : Option String) : Except PyError Network × List Effect :=
  match th_load env key map_location with
  | (.error e, tr) => (Except.error e, tr)
  | (.ok art, tr) => (applyStateDict model art, tr)

/-- Python `round` (banker's rounding, half to even), on exact rationals:
`f` is the floor of `q` and twice the fractional part's numerator is
compared against the denominator. -/
def pyRound (q : ℚ) : ℤ :=
  let f := q.num.fdiv (q.den : ℤ)
  let twice := 2 * (q.num - f * (q.den : ℤ))
  if twice < (q.den : ℤ) then f
  else if twice > (q.den : ℤ) then f + 1
  else if f % 2 = 0 then f else f + 1

/-! ## The factory functions -/

/-- `cifar10_tiny(n_channel, pretrained=False, map_location=None, padding=1,
trained_adv=False)` (source lines 66-83).  Only `padding == 1` and
`padding == 0` assign `cfg`; any other padding leaves `cfg` unbound and the
call to `make_layers(cfg, ...)` raises `UnboundLocalError` before any layer
is constructed.  The inner pretrained branch likewise leaves `state_dict`
unbound for other paddings (unreachable given the outer guard). -/
def cifar10_tiny (env : Env) (n_channel : Nat) (pretrained : Bool)
    (map_location : Option String) (padding : Int) (trained_adv : Bool) :
    Except PyError Network × List Effect :=
  let cfgOpt : Option (List LayerSpec) :=
    if padding = 1 then
      some [LayerSpec.pair n_channel padding, LayerSpec.M,
        LayerSpec.pair n_channel padding, LayerSpec.M,
        LayerSpec.pair (2*n_channel) padding, LayerSpec.M,
        LayerSpec.pair (2*n_channel) 0, LayerSpec.M]
    else if padding = 0 then
      some [LayerSpec.pair n_channel padding, LayerSpec.pair n_channel padding,
        LayerSpec.M, LayerSpec.pair (2*n_channel) padding, LayerSpec.M,
        LayerSpec.pair (2*n_channel) 0, LayerSpec.M]
    else none
  match cfgOpt with
  | none => (Except.error (PyError.unboundLocalError "cfg"), [])
  | some cfg =>
      let layers := make_layers cfg false
      let model := mkCIFAR env layers
        (if padding = 1 then 2*n_channel else 4*(2*n_channel)) 10
      if pretrained then
        if padding = 1 then
          loadAndApply env model "cifar10_tiny" map_location
        else if padding = 0 then
          if trained_adv then
            loadAndApply env model "cifar10_tinyb_adv" map_location
          else
            loadAndApply env model "cifar10_tinyb" map_location
        else
          (Except.error (PyError.unboundLocalError "state_dict"), [])
      else (Except.ok model, [])

/-- `cifar10(n_channel, pretrained=False, map_location=None,
trained_adv_l2_eps=0, trained_yoshida_eps=0, trained_static_eps=0,
trained_dynamic_eps=0, load_inf=False)` (source lines 85-116).  The eps
parameters are Python floats, modelled as exact rationals. -/
def cifar10 (env : Env) (n_channel : Nat) (pretrained : Bool)
    (map_location : Option String)
    (trained_adv_l2_eps trained_yoshida_eps trained_static_eps trained_dynamic_eps : ℚ)
    (load_inf : Bool) : Except PyError Network × List Effect :=
  let cfg : List LayerSpec := [LayerSpec.num n_channel, LayerSpec.num n_channel,
    LayerSpec.M, LayerSpec.num (2*n_channel), LayerSpec.num (2*n_channel),
    LayerSpec.M, LayerSpec.num (4*n_channel), LayerSpec.num (4*n_channel),
    LayerSpec.M, LayerSpec.pair (8*n_channel) 0, LayerSpec.M]
  let layers := make_layers cfg true
  let model := mkCIFAR env layers (8*n_channel) 10
  if pretrained then
    if trained_adv_l2_eps > 0 then
      let e := pyRound (trained_adv_l2_eps * 255)
      let url := "cifar10_advl2_" ++ toString e
      let url := if load_inf then "cifar10_inf_adv" else url
      loadAndApply env model url map_location
    else if trained_yoshida_eps > 0 then
      let e := pyRound (trained_yoshida_eps * 255)
      let url := "cifar10_yoshida_" ++ toString e
      loadAndApply env model url map_location
    else if trained_static_eps > 0 then
      let e := pyRound (trained_static_eps * 255)
      let url := "cifar10_static_" ++ toString e
      loadAndApply env model url map_location
    else if trained_dynamic_eps > 0 then
      let e := pyRound (trained_dynamic_eps * 255)
      let url := "cifar10_dynamic_" ++ toString e
      loadAndApply env model url map_location
    else if load_inf then
      loadAndApply env model "cifar10_inf" map_location
    else
      match model_zoo_load_url env "cifar10" map_location with
      | (.error e, tr) => (Except.error e, tr)
      | (.ok m, tr) => (applyStateDict model (stateDictOf m), tr)
  else (Except.ok model, [])

/-- `carlini(pretrained=False, map_location=None)` (source lines 118-126). -/
def carlini (env : Env) (pretrained : Bool) (map_location : Option String) :
    Except PyError Network × List Effect :=
  let cfg : List LayerSpec := [LayerSpec.pair 64 0, LayerSpec.pair 64 0,
    LayerSpec.M, LayerSpec.pair 128 0, LayerSpec.pair 128 0, LayerSpec.M]
  let layers := make_layers cfg false
  let model := mkCarlini env layers (128*5*5)
  if pretrained then
    loadAndApply env model "carlini" map_location
  else (Except.ok model, [])

/-- `cifar100(n_channel, pretrained=None)` (source lines 128-137).  The
`pretrained` parameter defaults to `None` and the guard is
`if pretrained is not None:`, so any non-`None` value — `False` included —
enters the loading branch; `None`-ness is all that matters, so the argument
is modelled as `Option Bool`.  The `load_url` call passes no
`map_location`. -/
def cifar100 (env : Env) (n_channel : Nat) (pretrained : Option Bool) :
    Except PyError Network × List Effect :=
  let cfg : List LayerSpec := [LayerSpec.num n_channel, LayerSpec.num n_channel,
    LayerSpec.M, LayerSpec.num (2*n_channel), LayerSpec.num (2*n_channel),
    LayerSpec.M, LayerSpec.num (4*n_channel), LayerSpec.num (4*n_channel),
    LayerSpec.M, LayerSpec.pair (8*n_channel) 0, LayerSpec.M]
  let layers := make_layers cfg true
  let model := mkCIFAR env layers (8*n_channel) 100
  if pretrained.isSome then
    match model_zoo_load_url env "cifar100" none with
    | (.error e, tr) => (Except.error e, tr)
    | (.ok m, tr) => (applyStateDict model (stateDictOf m), tr)
  else (Except.ok model, [])

/-- A concrete environment used for closed instances: every URL
deserializes to a non-mapping artifact and fresh modules start with an empty
parameter dictionary. -/
def env0 : Env :=
  { load := fun _ => Artifact.other, initState := fun _ _ => [] }

/-! ## Helper lemmas about the URL mapping -/

lemma fetchArtifact_absent (env : Env) (k : String)
    (h1 : k ≠ "cifar10") (h2 : k ≠ "cifar100") :
    fetchArtifact env k = (Except.error (PyError.lookupError k), []) := by
  have e1 : (k == ("cifar10" : String)) = false := beq_eq_false_iff_ne.mpr h1
  have e2 : (k == ("cifar100" : String)) = false := beq_eq_false_iff_ne.mpr h2
  simp [fetchArtifact, model_urls, List.lookup, e1, e2]

lemma append_ne_of_short (a s b : String) (h : b.length < a.length) : a ++ s ≠ b := by
  intro e
  have hl := congrArg String.length e
  rw [String.length_append] at hl
  omega

lemma loadAndApply_absent (env : Env) (model : Network) (k : String)
    (map_location : Option String) (h1 : k ≠ "cifar10") (h2 : k ≠ "cifar100") :
    loadAndApply env model k map_location
      = (Except.error (PyError.lookupError k), []) := by
  rw [loadAndApply, th_load, fetchArtifact_absent env k h1 h2]

/-! ## Claim theorems -/

/-- Claim C2: in the layer compiler, a bare integer `N` appends a 3x3
convolution from the current channel count to `N` with padding 1, optionally
a normalization layer with no learned affine parameters, then a
non-linearity, and sets the running channel count to `N`; a pair `(N, P)`
does the same with padding `P`; and the configuration `[8, 'M', 16]` with
`batch_norm=False` compiles to exactly conv(3→8), relu, pool, conv(8→16),
relu, with final running channel count 16. -/
theorem claim_C2 :
    (∀ (layers : List Layer) (cur N : Nat) (P : Int) (bn : Bool),
      make_layersStep bn (layers, cur) (LayerSpec.num N)
        = (layers ++ (if bn then
              [Layer.conv2d cur N 3 1, Layer.batchNorm2d N false, Layer.relu]
            else [Layer.conv2d cur N 3 1, Layer.relu]), N) ∧
      make_layersStep bn (layers, cur) (LayerSpec.pair N P)
        = (layers ++ (if bn then
              [Layer.conv2d cur N 3 P, Layer.batchNorm2d N false, Layer.relu]
            else [Layer.conv2d cur N 3 P, Layer.relu]), N)) ∧
    make_layers [LayerSpec.num 8, LayerSpec.M, LayerSpec.num 16] false
      = [Layer.conv2d 3 8 3 1, Layer.relu, Layer.maxPool2d 2 2,
         Layer.conv2d 8 16 3 1, Layer.relu] ∧
    (make_layersLoop [LayerSpec.num 8, LayerSpec.M, LayerSpec.num 16] false).2 = 16 :=
  ⟨fun _ _ _ _ _ => ⟨rfl, rfl⟩, by decide, by decide⟩

/-- Claim C5: the layer compiler's loop produces both the ordered layer
sequence (what `make_layers` returns) and the final running channel count,
and for every configuration without pooling markers that reported channel
count equals the channel value of the last entry. -/
theorem claim_C5 (cfg : List LayerSpec) (bn : Bool) :
    make_layers cfg bn = (make_layersLoop cfg bn).1 ∧
    ∀ v : LayerSpec, (∀ u ∈ cfg, u ≠ LayerSpec.M) → cfg.getLast? = some v →
      (make_layersLoop cfg bn).2 = channelOf v :=
  ⟨rfl, fun v hno hlast => foldl_snd_last bn cfg ([], 3) v hno hlast⟩

theorem claim_C5_witness :
    make_layers [LayerSpec.num 8, LayerSpec.pair 16 0] true
        = (make_layersLoop [LayerSpec.num 8, LayerSpec.pair 16 0] true).1 ∧
      (make_layersLoop [LayerSpec.num 8, LayerSpec.pair 16 0] true).2 = 16 := by
  have h := claim_C5 [LayerSpec.num 8, LayerSpec.pair 16 0] true
  exact ⟨h.1, h.2 (LayerSpec.pair 16 0) (by decide) (by decide)⟩

/-- Claim C8: for every configuration, the number of 2x2 stride-2
downsampling layers in the compiled sequence equals the number of pooling
markers `'M'` in the configuration, and processing a pooling marker leaves
the running channel count unchanged. -/
theorem claim_C8 (cfg : List LayerSpec) (bn : Bool) :
    (make_layers cfg bn).countP isPool = cfg.countP isM ∧
    ∀ st : List Layer × Nat, (make_layersStep bn st LayerSpec.M).2 = st.2 := by
  constructor
  · have h := foldl_countP_pool bn cfg ([], 3)
    simpa [make_layers, make_layersLoop] using h
  · intro st; rfl

/-- Claim C3: loading a checkpoint whose parameter keys do not match the
network's parameter names fails with `StateMismatchError` and leaves the
network's parameters exactly as they were (atomic, all-or-nothing).  The
`load_state_dict` operation lives in the external tensor library, so it is
modelled from the spec (see `loadStateDictMut`). -/
theorem claim_C3 (model : Network) (sd : StateDict)
    (h : keysMatch model.state sd = false) :
    loadStateDictMut model sd = (model, some PyError.stateMismatchError) := by
  simp [loadStateDictMut, h]

theorem claim_C3_witness :
    loadStateDictMut
        { features := [], classifier := [], state := [("a", 0)] } [("b", 0)]
      = ({ features := [], classifier := [], state := [("a", 0)] },
         some PyError.stateMismatchError) :=
  claim_C3 _ _ (by decide)

/-- Claim C6: `cifar10(n, pretrained=False, ...)` performs no network I/O:
its effect trace is empty, for every environment and every argument
assignment, because every fetch lies in the branch guarded by the
pretrained flag. -/
theorem claim_C6 (env : Env) (n : Nat) (mloc : Option String)
    (a y s d : ℚ) (li : Bool) :
    (cifar10 env n false mloc a y s d li).2 = [] := rfl

/-- Claim C10: `cifar10_tiny` with a padding different from 0 and 1 fails
with an unbound-local-variable error for `cfg` before any layer is
constructed (empty effect trace, no network produced); only paddings 0 and
1 assign a configuration. -/
theorem claim_C10 (env : Env) (n : Nat) (pretrained : Bool)
    (mloc : Option String) (p : Int) (adv : Bool) (h0 : p ≠ 0) (h1 : p ≠ 1) :
    cifar10_tiny env n pretrained mloc p adv
      = (Except.error (PyError.unboundLocalError "cfg"), []) := by
  simp only [cifar10_tiny, if_neg h1, if_neg h0]

theorem claim_C10_witness :
    cifar10_tiny env0 4 true none 2 false
      = (Except.error (PyError.unboundLocalError "cfg"), []) :=
  claim_C10 env0 4 true none 2 false (by decide) (by decide)

/-! ## Branch selection in `cifar10` -/

lemma cifar10_sel_advl2 (env : Env) (n : Nat) (mloc : Option String)
    (a y s d : ℚ) (ha : 0 < a) :
    cifar10 env n true mloc a y s d false
      = (Except.error (PyError.lookupError
          ("cifar10_advl2_" ++ toString (pyRound (a * 255)))), []) := by
  simp only [cifar10, if_pos ha, eq_self_iff_true, if_true, Bool.false_eq_true, if_false]
  refine loadAndApply_absent _ _ _ _ ?_ ?_
  · exact append_ne_of_short _ _ _ (by decide)
  · exact append_ne_of_short _ _ _ (by decide)

lemma cifar10_sel_inf_adv (env : Env) (n : Nat) (mloc : Option String)
    (a y s d : ℚ) (ha : 0 < a) :
    cifar10 env n true mloc a y s d true
      = (Except.error (PyError.lookupError "cifar10_inf_adv"), []) := by
  simp only [cifar10, if_pos ha, eq_self_iff_true, if_true, Bool.false_eq_true, if_false]
  refine loadAndApply_absent _ _ _ _ ?_ ?_
  · decide
  · decide

lemma cifar10_sel_yoshida (env : Env) (n : Nat) (mloc : Option String)
    (a y s d : ℚ) (li : Bool) (hna : ¬ 0 < a) (hy : 0 < y) :
    cifar10 env n true mloc a y s d li
      = (Except.error (PyError.lookupError
          ("cifar10_yoshida_" ++ toString (pyRound (y * 255)))), []) := by
  simp only [cifar10, if_neg hna, if_pos hy, eq_self_iff_true, if_true, Bool.false_eq_true, if_false]
  refine loadAndApply_absent _ _ _ _ ?_ ?_
  · exact append_ne_of_short _ _ _ (by decide)
  · exact append_ne_of_short _ _ _ (by decide)

lemma cifar10_sel_static (env : Env) (n : Nat) (mloc : Option String)
    (a y s d : ℚ) (li : Bool) (hna : ¬ 0 < a) (hny : ¬ 0 < y) (hs : 0 < s) :
    cifar10 env n true mloc a y s d li
      = (Except.error (PyError.lookupError
          ("cifar10_static_" ++ toString (pyRound (s * 255)))), []) := by
  simp only [cifar10, if_neg hna, if_neg hny, if_pos hs, eq_self_iff_true, if_true, Bool.false_eq_true, if_false]
  refine loadAndApply_absent _ _ _ _ ?_ ?_
  · exact append_ne_of_short _ _ _ (by decide)
  · exact append_ne_of_short _ _ _ (by decide)

lemma cifar10_sel_dynamic (env : Env) (n : Nat) (mloc : Option String)
    (a y s d : ℚ) (li : Bool) (hna : ¬ 0 < a) (hny : ¬ 0 < y)
    (hns : ¬ 0 < s) (hd : 0 < d) :
    cifar10 env n true mloc a y s d li
      = (Except.error (PyError.lookupError
          ("cifar10_dynamic_" ++ toString (pyRound (d * 255)))), []) := by
  simp only [cifar10, if_neg hna, if_neg hny, if_neg hns, if_pos hd, eq_self_iff_true, if_true, Bool.false_eq_true, if_false]
  refine loadAndApply_absent _ _ _ _ ?_ ?_
  · exact append_ne_of_short _ _ _ (by decide)
  · exact append_ne_of_short _ _ _ (by decide)

lemma cifar10_sel_inf (env : Env) (n : Nat) (mloc : Option String)
    (a y s d : ℚ) (hna : ¬ 0 < a) (hny : ¬ 0 < y)
    (hns : ¬ 0 < s) (hnd : ¬ 0 < d) :
    cifar10 env n true mloc a y s d true
      = (Except.error (PyError.lookupError "cifar10_inf"), []) := by
  simp only [cifar10, if_neg hna, if_neg hny, if_neg hns, if_neg hnd, eq_self_iff_true, if_true, Bool.false_eq_true, if_false]
  refine loadAndApply_absent _ _ _ _ ?_ ?_
  · decide
  · decide

lemma cifar10_sel_default (env : Env) (n : Nat) (mloc : Option String)
    (a y s d : ℚ) (hna : ¬ 0 < a) (hny : ¬ 0 < y)
    (hns : ¬ 0 < s) (hnd : ¬ 0 < d) :
    (cifar10 env n true mloc a y s d false).2
      = [Effect.fetch
          "http://ml.cs.tsinghua.edu.cn/~chenxi/pytorch-models/cifar10-d875770b.pth"] := by
  simp only [cifar10, if_neg hna, if_neg hny, if_neg hns, if_neg hnd, eq_self_iff_true, if_true, Bool.false_eq_true, if_false]
  rfl


/-- Claim C1: when `cifar10` is called with `pretrained=True` and several
severity parameters are nonzero (the severities are nonnegative magnitudes,
so nonzero means positive), the checkpoint family is selected by the fixed
precedence order adversarial-L2 > Yoshida > static > dynamic > infinite >
default — each selected key is observable in the result: a missing-key
`LookupError` naming the family key, or (default family) the fetch of the
`cifar10` URL; in particular
`cifar10(n, pretrained=True, trained_adv_l2_eps=0.03, trained_yoshida_eps=0.05)`
selects the adversarial-L2 family key `cifar10_advl2_8`. -/
theorem claim_C1 (env : Env) (n : Nat) (mloc : Option String) (a y s d : ℚ) :
    (0 < a → ∃ suffix, (cifar10 env n true mloc a y s d false).1
        = Except.error (PyError.lookupError ("cifar10_advl2_" ++ suffix))) ∧
    (¬ 0 < a → 0 < y → ∀ li, ∃ suffix, (cifar10 env n true mloc a y s d li).1
        = Except.error (PyError.lookupError ("cifar10_yoshida_" ++ suffix))) ∧
    (¬ 0 < a → ¬ 0 < y → 0 < s → ∀ li, ∃ suffix,
      (cifar10 env n true mloc a y s d li).1
        = Except.error (PyError.lookupError ("cifar10_static_" ++ suffix))) ∧
    (¬ 0 < a → ¬ 0 < y → ¬ 0 < s → 0 < d → ∀ li, ∃ suffix,
      (cifar10 env n true mloc a y s d li).1
        = Except.error (PyError.lookupError ("cifar10_dynamic_" ++ suffix))) ∧
    (¬ 0 < a → ¬ 0 < y → ¬ 0 < s → ¬ 0 < d →
      (cifar10 env n true mloc a y s d true).1
        = Except.error (PyError.lookupError "cifar10_inf")) ∧
    (¬ 0 < a → ¬ 0 < y → ¬ 0 < s → ¬ 0 < d →
      (cifar10 env n true mloc a y s d false).2
        = [Effect.fetch
            "http://ml.cs.tsinghua.edu.cn/~chenxi/pytorch-models/cifar10-d875770b.pth"]) ∧
    (cifar10 env n true mloc 0.03 0.05 0 0 false).1
      = Except.error (PyError.lookupError "cifar10_advl2_8") := by
  refine ⟨?_, ?_, ?_, ?_, ?_, ?_, ?_⟩
  · intro ha
    exact ⟨_, by rw [cifar10_sel_advl2 env n mloc a y s d ha]⟩
  · intro hna hy li
    exact ⟨_, by rw [cifar10_sel_yoshida env n mloc a y s d li hna hy]⟩
  · intro hna hny hs li
    exact ⟨_, by rw [cifar10_sel_static env n mloc a y s d li hna hny hs]⟩
  · intro hna hny hns hd li
    exact ⟨_, by rw [cifar10_sel_dynamic env n mloc a y s d li hna hny hns hd]⟩
  · intro hna hny hns hnd
    rw [cifar10_sel_inf env n mloc a y s d hna hny hns hnd]
  · intro hna hny hns hnd
    exact cifar10_sel_default env n mloc a y s d hna hny hns hnd
  · rw [cifar10_sel_advl2 env n mloc 0.03 0.05 0 0 (by norm_num)]
    have h255 : (0.03 : ℚ) * 255 = mkRat 153 20 := by norm_num [mkRat]
    exact congrArg (fun k => Except.error (PyError.lookupError k))
      (by rw [h255]; decide)

theorem claim_C1_witness :
    ((cifar10 env0 4 true none 0.03 0.05 0 0 false).1
      = Except.error (PyError.lookupError "cifar10_advl2_8")) ∧
    (∃ suffix, (cifar10 env0 4 true none 0 0.05 0 0 false).1
      = Except.error (PyError.lookupError ("cifar10_yoshida_" ++ suffix))) := by
  refine ⟨(claim_C1 env0 4 none 0.03 0.05 0 0).2.2.2.2.2.2, ?_⟩
  exact (claim_C1 env0 4 none 0 0.05 0 0).2.1 (by norm_num) (by norm_num) false

lemma inf_adv_ne_advl2 (s : String) : "cifar10_inf_adv" ≠ "cifar10_advl2_" ++ s := by
  intro h
  have hd : ("cifar10_inf_adv" : String).data
      = ("cifar10_advl2_" : String).data ++ s.data := by
    rw [h, String.data_append]
  have ht : (("cifar10_inf_adv" : String).data.take 14)
      = ("cifar10_advl2_" : String).data := by
    rw [hd, List.take_left' (by decide)]
  exact absurd ht (by decide)

/-- Claim C9: inside the adversarial-L2 branch (`trained_adv_l2_eps > 0`)
the `load_inf` flag overrides the key: with `load_inf=True`, the selected
checkpoint key is `cifar10_inf_adv` — which is not of the form
`cifar10_advl2_{round(e*255)}` — not the adversarial-L2 family key. -/
theorem claim_C9 (env : Env) (n : Nat) (mloc : Option String)
    (e y s d : ℚ) (he : 0 < e) :
    (cifar10 env n true mloc e y s d true).1
        = Except.error (PyError.lookupError "cifar10_inf_adv") ∧
    ∀ z : ℤ, "cifar10_inf_adv" ≠ "cifar10_advl2_" ++ toString z := by
  constructor
  · rw [cifar10_sel_inf_adv env n mloc e y s d he]
  · intro z; exact inf_adv_ne_advl2 (toString z)

theorem claim_C9_witness :
    (cifar10 env0 4 true none 0.03 0 0 0 true).1
        = Except.error (PyError.lookupError "cifar10_inf_adv") ∧
    ∀ z : ℤ, "cifar10_inf_adv" ≠ "cifar10_advl2_" ++ toString z :=
  claim_C9 env0 4 none 0.03 0 0 0 (by norm_num)

/-- Claim C7: the in-source URL mapping holds exactly the keys `cifar10`
and `cifar100`; looking up any other key fails with a `LookupError` (and no
fetch happens); in particular `cifar10_tiny(n, pretrained=True)` (default
padding 1) and `carlini(pretrained=True)` fail with a `LookupError` naming
their absent keys. -/
theorem claim_C7 :
    model_urls.map Prod.fst = ["cifar10", "cifar100"] ∧
    (∀ (env : Env) (k : String), k ≠ "cifar10" → k ≠ "cifar100" →
      fetchArtifact env k = (Except.error (PyError.lookupError k), [])) ∧
    (∀ (env : Env) (n : Nat) (mloc : Option String) (adv : Bool),
      (cifar10_tiny env n true mloc 1 adv).1
        = Except.error (PyError.lookupError "cifar10_tiny")) ∧
    (∀ (env : Env) (mloc : Option String),
      (carlini env true mloc).1 = Except.error (PyError.lookupError "carlini")) := by
  refine ⟨rfl, fetchArtifact_absent, ?_, ?_⟩
  · intro env n mloc adv
    simp only [cifar10_tiny, if_pos rfl, eq_self_iff_true, if_true]
    rw [loadAndApply_absent _ _ _ _ (by decide) (by decide)]
  · intro env mloc
    simp only [carlini, eq_self_iff_true, if_true]
    rw [loadAndApply_absent _ _ _ _ (by decide) (by decide)]

theorem claim_C7_witness :
    model_urls.map Prod.fst = ["cifar10", "cifar100"] ∧
    fetchArtifact env0 "carlini"
      = (Except.error (PyError.lookupError "carlini"), []) ∧
    (cifar10_tiny env0 4 true none 1 false).1
      = Except.error (PyError.lookupError "cifar10_tiny") ∧
    (carlini env0 true none).1 = Except.error (PyError.lookupError "carlini") :=
  ⟨claim_C7.1, claim_C7.2.1 env0 "carlini" (by decide) (by decide),
   claim_C7.2.2.1 env0 4 none false, claim_C7.2.2.2 env0 none⟩

/-- Claim C4 counterexample: the claim says every factory performs no fetch
when the pretrained flag is passed as `False`, but `cifar100` guards loading
with `pretrained is not None`, so `cifar100(4, pretrained=False)` does
perform a fetch: its effect trace is nonempty (it fetches the `cifar100`
URL). -/
theorem claim_C4_counterexample :
    (cifar100 env0 4 (some false)).2
        = [Effect.fetch
            "http://ml.cs.tsinghua.edu.cn/~chenxi/pytorch-models/cifar100-3a55a987.pth"] ∧
    (cifar100 env0 4 (some false)).2 ≠ [] := ⟨rfl, by decide⟩

/-- Claim C4 (amended): `cifar10`, `cifar10_tiny` and `carlini` guard
loading with `if pretrained:`, so with `pretrained=False` they fetch
nothing; `cifar100` guards with `pretrained is not None`, so only the
default `None` avoids the fetch — any non-`None` value, `False` included,
fetches the `cifar100` URL. -/
theorem claim_C4_amended (env : Env) (n : Nat) (mloc : Option String)
    (a y s d : ℚ) (li : Bool) (p : Int) (adv : Bool) :
    (cifar10 env n false mloc a y s d li).2 = [] ∧
    (cifar10_tiny env n false mloc p adv).2 = [] ∧
    (carlini env false mloc).2 = [] ∧
    (cifar100 env n none).2 = [] ∧
    ∀ b : Bool, (cifar100 env n (some b)).2
      = [Effect.fetch
          "http://ml.cs.tsinghua.edu.cn/~chenxi/pytorch-models/cifar100-3a55a987.pth"] := by
  refine ⟨rfl, ?_, rfl, rfl, fun b => rfl⟩
  simp only [cifar10_tiny]
  split
  · rfl
  · rfl
